import Mathlib

/-!
Verification development for the Relume repository
(`code/raspberry/cinema_driver.py` and `code/raspberry/image_preprocessing.py`).

The two Python modules are shallowly embedded below:

* `image_preprocessing.py` — the two pipeline entry points `preprocess` and
  `adjust_parameters` become pure Lean functions.  The OpenCV primitives they
  call (denoising, grayscale conversion, CLAHE, Gaussian blur, Canny,
  morphological closing) are external library calls and are kept opaque by
  threading them through a `CvOps` record of arbitrary functions; the final
  fusion call `cv2.addWeighted` is modelled concretely from its documented
  semantics (`dst = saturate_cast<uchar>(cvRound(src1*alpha + src2*beta +
  gamma))`, with `cvRound` rounding half to even) because the fusion claim is
  about its arithmetic.  Every stage invocation is recorded in a trace
  together with the exact parameter values the Python code passes, and the
  frames displayed in debug mode are recorded as well.

* `cinema_driver.py` — the `CinemaDriver` class becomes a state record, its
  methods become state-transition functions, and one iteration of
  `_capture_loop` becomes `captureIter`, driven by an environment value that
  supplies the outcomes of the external device operations (`cap.read()`
  succeeding or failing, a fresh `cv2.VideoCapture` being opened or not, the
  registered callback raising or not).  Numeric literals are exact rationals.
-/

namespace Relume

/-! ## Frames and the concrete `cv2.addWeighted` arithmetic -/

/-- An image buffer: dimensions, channel count and the flattened pixel data
(8-bit unsigned values, represented as `Nat`). -/
structure Frame where
  width : Nat
  height : Nat
  channels : Nat
  data : List Nat
deriving DecidableEq

/-- OpenCV `saturate_cast<uchar>`: clamp an integer into `[0, 255]`. -/
def satCastU8 (z : ℤ) : Nat :=
  if z < 0 then 0 else if 255 < z then 255 else z.toNat

/-- OpenCV `cvRound`: round to the nearest integer, ties to even. -/
def cvRound (q : ℚ) : ℤ :=
  if Int.fract q < 1 / 2 then ⌊q⌋
  else if 1 / 2 < Int.fract q then ⌊q⌋ + 1
  else if ⌊q⌋ % 2 = 0 then ⌊q⌋ else ⌊q⌋ + 1

/-- `cv2.addWeighted(src1, alpha, src2, beta, gamma)` on 8-bit frames, per the
documented formula `dst(I) = saturate(src1(I)*alpha + src2(I)*beta + gamma)`. -/
def addWeighted (src1 : Frame) (alpha : ℚ) (src2 : Frame) (beta gamma : ℚ) : Frame :=
  { width := src1.width, height := src1.height, channels := src1.channels,
    data := List.zipWith
      (fun (a b : Nat) => satCastU8 (cvRound (alpha * (a : ℚ) + beta * (b : ℚ) + gamma)))
      src1.data src2.data }

/-- A constant-valued frame: every one of the `w*h*c` samples equals `v`. -/
def constFrame (w h c v : Nat) : Frame :=
  { width := w, height := h, channels := c, data := List.replicate (w * h * c) v }

/-! ## The opaque OpenCV primitives used by the pipeline

`image_preprocessing.py` treats these as black boxes supplied by `cv2`; the
pipeline's own content is which primitive is called, in which order, and with
which parameters.  Each field receives exactly the parameters the Python code
passes. -/

/-- The external OpenCV operations consumed by the pipeline (arbitrary
deterministic functions). -/
structure CvOps where
  fastNlMeansDenoisingColored : Frame → ℚ → ℚ → Nat → Nat → Frame
  cvtColorBGR2GRAY : Frame → Frame
  claheApply : ℚ → Nat × Nat → Frame → Frame
  gaussianBlur : Frame → Nat × Nat → ℚ → Frame
  canny : Frame → ℚ → ℚ → Frame
  morphologyExClose : Frame → Nat × Nat → Nat → Frame

/-- The only error `preprocess`/`adjust_parameters` raise themselves: the
`ValueError` for an absent input image (the spec's `EmptyInputError`). -/
inductive PipeError where
  | emptyInput
deriving DecidableEq

/-- One executed pipeline stage, recording the primitive invoked, the
parameter values passed to it, and its output frame. -/
inductive StageCall where
  | denoise (h hColor : ℚ) (templateWindowSize searchWindowSize : Nat) (out : Frame)
  | cvtGray (out : Frame)
  | clahe (clipLimit : ℚ) (tileGridSize : Nat × Nat) (out : Frame)
  | gaussianBlur (ksize : Nat × Nat) (sigma : ℚ) (out : Frame)
  | canny (threshold1 threshold2 : ℚ) (out : Frame)
  | morphClose (ksize : Nat × Nat) (iters : Nat) (out : Frame)
  | fuse (alpha beta gamma : ℚ) (out : Frame)
deriving DecidableEq

/-- Result of a pipeline invocation: the returned frame, the ordered trace of
executed stages, and the intermediate frames displayed via `cv2.imshow` when
`debug` is set (window title, frame). -/
structure PipeResult where
  output : Frame
  stages : List StageCall
  shown : List (String × Frame)
deriving DecidableEq

/-- `preprocess(image, debug=False)` from `image_preprocessing.py` (lines
24-88): the fixed-default entry point.  Raises (`Except.error`) on a `None`
input, otherwise runs the six stages with the hard-coded parameters. -/
def preprocess (ops : CvOps) (image : Option Frame) (debug : Bool) :
    Except PipeError PipeResult :=
  match image with
  | none => Except.error PipeError.emptyInput
  | some img =>
    let denoised := ops.fastNlMeansDenoisingColored img 10 10 7 21
    let gray := ops.cvtColorBGR2GRAY denoised
    let equalized := ops.claheApply 2 (8, 8) gray
    let blurred := ops.gaussianBlur equalized (5, 5) 0
    let edges := ops.canny blurred 50 150
    let morphed := ops.morphologyExClose edges (3, 3) 1
    let preprocessed := addWeighted equalized (8 / 10) morphed (2 / 10) 0
    Except.ok
      { output := preprocessed,
        stages := [StageCall.denoise 10 10 7 21 denoised,
                   StageCall.cvtGray gray,
                   StageCall.clahe 2 (8, 8) equalized,
                   StageCall.gaussianBlur (5, 5) 0 blurred,
                   StageCall.canny 50 150 edges,
                   StageCall.morphClose (3, 3) 1 morphed,
                   StageCall.fuse (8 / 10) (2 / 10) 0 preprocessed],
        shown := if debug then
                   [("Step 1 - Denoised", denoised),
                    ("Step 2 - Grayscale", gray),
                    ("Step 3 - Equalized", equalized),
                    ("Step 4 - Edges", edges),
                    ("Step 5 - Morphology", morphed),
                    ("Final Preprocessed", preprocessed)]
                 else [] }

/-- `adjust_parameters(image, denoise_h=10, denoise_hColor=10, clipLimit=2.0,
tileGridSize=(8,8), canny_thresh1=50, canny_thresh2=150, debug=False)` from
`image_preprocessing.py` (lines 90-149): the parameterized entry point.  The
thresholds and strengths are forwarded verbatim; no validation is performed. -/
def adjust_parameters (ops : CvOps) (image : Option Frame)
    (denoise_h denoise_hColor clipLimit : ℚ) (tileGridSize : Nat × Nat)
    (canny_thresh1 canny_thresh2 : ℚ) (debug : Bool) :
    Except PipeError PipeResult :=
  match image with
  | none => Except.error PipeError.emptyInput
  | some img =>
    let denoised := ops.fastNlMeansDenoisingColored img denoise_h denoise_hColor 7 21
    let gray := ops.cvtColorBGR2GRAY denoised
    let equalized := ops.claheApply clipLimit tileGridSize gray
    let blurred := ops.gaussianBlur equalized (5, 5) 0
    let edges := ops.canny blurred canny_thresh1 canny_thresh2
    let morphed := ops.morphologyExClose edges (3, 3) 1
    let preprocessed := addWeighted equalized (8 / 10) morphed (2 / 10) 0
    Except.ok
      { output := preprocessed,
        stages := [StageCall.denoise denoise_h denoise_hColor 7 21 denoised,
                   StageCall.cvtGray gray,
                   StageCall.clahe clipLimit tileGridSize equalized,
                   StageCall.gaussianBlur (5, 5) 0 blurred,
                   StageCall.canny canny_thresh1 canny_thresh2 edges,
                   StageCall.morphClose (3, 3) 1 morphed,
                   StageCall.fuse (8 / 10) (2 / 10) 0 preprocessed],
        shown := if debug then
                   [("Adjust - Denoised", denoised),
                    ("Adjust - Grayscale", gray),
                    ("Adjust - Equalized", equalized),
                    ("Adjust - Edges", edges),
                    ("Adjust - Morphology", morphed),
                    ("Adjust - Final Preprocessed", preprocessed)]
                 else [] }

/-- The thresholds passed to the Canny call of a stage trace, if any. -/
def cannyArgs : List StageCall → Option (ℚ × ℚ)
  | [] => none
  | StageCall.canny t1 t2 _ :: _ => some (t1, t2)
  | _ :: rest => cannyArgs rest

/-- A concrete instantiation of the opaque OpenCV primitives (each returns its
input frame unchanged), used to evaluate the pipeline on concrete inputs. -/
def trivOps : CvOps :=
  { fastNlMeansDenoisingColored := fun f _ _ _ _ => f,
    cvtColorBGR2GRAY := fun f => f,
    claheApply := fun _ _ f => f,
    gaussianBlur := fun f _ _ => f,
    canny := fun f _ _ => f,
    morphologyExClose := fun f _ _ => f }

/-- A zero-size frame: present (not `None`), but holding no pixels. -/
def zeroFrame : Frame := { width := 0, height := 0, channels := 3, data := [] }

/-- A 1x1 BGR frame used as a concrete pipeline input. -/
def rgbFrame : Frame := { width := 1, height := 1, channels := 3, data := [7, 7, 7] }

/-! ## The camera driver (`cinema_driver.py`)

The `CinemaDriver` object state.  `cap` models `self.cap`: `none` when no
`cv2.VideoCapture` is held, `some b` when one is held with `isOpened() = b`.
`threadsStarted` counts how many capture-loop threads have been launched
(`self.capture_thread` is merely overwritten by each `start_capture`; an
already-running loop keeps running).  Device-side effects of `cap.set(...)`
calls are external and not part of the state. -/
structure CinemaDriver where
  camera_id : Int
  width : Int
  height : Int
  fps : Int
  exposure : Int
  white_balance : Int
  brightness : Int
  contrast : Int
  cap : Option Bool
  running : Bool
  threadsStarted : Nat
  hasCallback : Bool
  fail_count : Nat
deriving DecidableEq

/-- `CinemaDriver.__init__(camera_id=0, width=640, height=480, fps=30)`
(lines 24-47): field defaults exactly as in the source. -/
def CinemaDriver.mk0 (camera_id width height fps : Int) : CinemaDriver :=
  { camera_id := camera_id, width := width, height := height, fps := fps,
    exposure := -4, white_balance := 4000, brightness := 150, contrast := 50,
    cap := none, running := false, threadsStarted := 0,
    hasCallback := false, fail_count := 0 }

/-- `initialize_camera` (lines 49-72): assigns `self.cap = cv2.VideoCapture(id)`
and raises if it is not opened (`openOk` is the outcome of that external open).
Only on success does it reach the final line `self.fail_count = 0`.  The
returned `Bool` is `false` when the method raised; the state mutations made
before the raise persist, as in Python. -/
def init_camera (d : CinemaDriver) (openOk : Bool) : CinemaDriver × Bool :=
  let d1 := { d with cap := some openOk }
  if openOk then ({ d1 with fail_count := 0 }, true) else (d1, false)

/-- `release_camera` (lines 180-187): releases and clears the handle when one
is held. -/
def release_camera (d : CinemaDriver) : CinemaDriver :=
  if d.cap.isSome then { d with cap := none } else d

/-- `set_camera_parameters(**params)` (lines 74-107): returns immediately
(after a warning log) when `self.cap is None`; otherwise folds over the given
key/value pairs, storing each recognized field and forwarding it to the
device, and logging a warning for unknown keys. -/
def set_camera_parameters (d : CinemaDriver) (params : List (String × Int)) :
    CinemaDriver :=
  match d.cap with
  | none => d
  | some _ =>
    params.foldl (fun acc kv =>
      if kv.1 = "width" then { acc with width := kv.2 }
      else if kv.1 = "height" then { acc with height := kv.2 }
      else if kv.1 = "fps" then { acc with fps := kv.2 }
      else if kv.1 = "exposure" then { acc with exposure := kv.2 }
      else if kv.1 = "white_balance" then { acc with white_balance := kv.2 }
      else if kv.1 = "brightness" then { acc with brightness := kv.2 }
      else if kv.1 = "contrast" then { acc with contrast := kv.2 }
      else acc) d

/-- `start_capture` (lines 119-128): initializes the camera only when
`self.cap is None` (an exception from that initialization propagates to the
caller, `Bool` result `false`), then unconditionally sets `running = True` and
starts a new `_capture_loop` thread — there is no already-running guard. -/
def start_capture (d : CinemaDriver) (openOk : Bool) : CinemaDriver × Bool :=
  match d.cap with
  | none =>
    let r := init_camera d openOk
    if r.2 then
      ({ r.1 with running := true, threadsStarted := r.1.threadsStarted + 1 }, true)
    else (r.1, false)
  | some _ =>
    ({ d with running := true, threadsStarted := d.threadsStarted + 1 }, true)

/-- Outcomes of the external operations one `_capture_loop` iteration may
perform: whether `self.cap.read()` yields a frame, whether a reinitialization
attempted this iteration finds an openable device, and whether the registered
callback raises on the frame. -/
structure IterEnv where
  readOk : Bool
  reinitOk : Bool
  cbRaises : Bool
deriving DecidableEq

/-- Observable record of one `_capture_loop` iteration: the driver state at
the end of the iteration and what the iteration did. -/
structure IterResult where
  state : CinemaDriver
  reinitAttempted : Bool
  reinitErrorLogged : Bool
  callbackInvoked : Bool
  callbackErrorLogged : Bool
deriving DecidableEq

/-- One iteration of `_capture_loop` (lines 134-157).  On a failed read the
counter is incremented and, once it has reached 5, `release_camera()` and then
`initialize_camera()` run, the latter inside `try/except` (its failure is
logged and the loop continues).  On a successful read the counter resets to 0
and the registered callback, if any, is invoked inside `try/except` (its
exception is logged and never propagates). -/
def captureIter (d : CinemaDriver) (env : IterEnv) : IterResult :=
  if env.readOk then
    let d1 := { d with fail_count := 0 }
    { state := d1, reinitAttempted := false, reinitErrorLogged := false,
      callbackInvoked := d1.hasCallback,
      callbackErrorLogged := d1.hasCallback && env.cbRaises }
  else
    let d1 := { d with fail_count := d.fail_count + 1 }
    if 5 ≤ d1.fail_count then
      let r := init_camera (release_camera d1) env.reinitOk
      { state := r.1, reinitAttempted := true, reinitErrorLogged := !r.2,
        callbackInvoked := false, callbackErrorLogged := false }
    else
      { state := d1, reinitAttempted := false, reinitErrorLogged := false,
        callbackInvoked := false, callbackErrorLogged := false }

/-- Run `_capture_loop` for one iteration per environment entry, threading the
driver state through and collecting each iteration's observable record. -/
def captureRun (d : CinemaDriver) : List IterEnv → List IterResult
  | [] => []
  | e :: es =>
    let r := captureIter d e
    r :: captureRun r.state es

/-- An iteration environment in which the frame read fails and any attempted
reinitialization also fails. -/
def failEnv : IterEnv := { readOk := false, reinitOk := false, cbRaises := false }

/-- An iteration environment in which the frame read succeeds; `cb` says
whether the registered callback raises. -/
def succEnv (cb : Bool) : IterEnv := { readOk := true, reinitOk := true, cbRaises := cb }

/-- The driver as built in the module's `__main__` example:
`CinemaDriver(camera_id=0, width=640, height=480, fps=30)`. -/
def defaultDriver : CinemaDriver := CinemaDriver.mk0 0 640 480 30

/-- `defaultDriver` after a successful `initialize_camera()`. -/
def openDriver : CinemaDriver := { defaultDriver with cap := some true }

/-! ## Pipeline claims -/

/-- C5: for every input frame (and every behavior of the external OpenCV
primitives), the fixed-default entry point `preprocess` and the parameterized
entry point `adjust_parameters` invoked with its default parameter values
(`denoise_h=10`, `denoise_hColor=10`, `clipLimit=2.0`, `tileGridSize=(8,8)`,
`canny_thresh1=50`, `canny_thresh2=150`) produce bit-identical outputs at
every stage and a bit-identical final result; both are pure functions of
their arguments by construction. -/
theorem default_pipeline_eq_parameterized
    (ops : CvOps) (image : Option Frame) (debug : Bool) :
    (preprocess ops image debug).map (fun r => (r.output, r.stages)) =
      (adjust_parameters ops image 10 10 2 (8, 8) 50 150 debug).map
        (fun r => (r.output, r.stages)) := by
  cases image <;> rfl

/-- C4 (counterexample): a present but zero-size input frame is *not*
rejected.  With concrete primitives, `preprocess` on `zeroFrame` (0x0 pixels)
in debug mode completes without `EmptyInputError`: all 7 stage calls execute
and all 6 debug displays fire, contradicting the claim that a zero-size input
fails immediately before any stage runs. -/
theorem zero_size_not_rejected :
    (preprocess trivOps (some zeroFrame) true).toOption.isSome = true ∧
      (preprocess trivOps (some zeroFrame) true).toOption.map
        (fun r => (r.stages.length, r.shown.length)) = some (7, 6) := by
  exact ⟨rfl, rfl⟩

/-- C4 (amended): for every absent (`None`) input, both pipeline entry points
fail immediately with `EmptyInputError`, before any stage runs — no stage
executes and no debug display fires (the error result carries no stage trace
at all).  Zero-size but present frames are not checked. -/
theorem none_input_rejected_before_stages
    (ops : CvOps) (debug : Bool) (dh dhc clip : ℚ) (tiles : Nat × Nat)
    (t1 t2 : ℚ) :
    preprocess ops none debug = Except.error PipeError.emptyInput ∧
      adjust_parameters ops none dh dhc clip tiles t1 t2 debug =
        Except.error PipeError.emptyInput := by
  exact ⟨rfl, rfl⟩

/-- C6 (counterexample): `adjust_parameters` neither rejects nor normalizes
Canny thresholds with `canny_thresh2 < canny_thresh1`.  Invoked with lower
threshold 150 and upper threshold 50, it completes normally and forwards
exactly `(150, 50)` to the edge detector, so the invariant
`edgeHighThreshold ≥ edgeLowThreshold` is violated during that execution. -/
theorem canny_thresholds_unvalidated :
    (adjust_parameters trivOps (some rgbFrame) 10 10 2 (8, 8) 150 50
        false).toOption.isSome = true ∧
      (adjust_parameters trivOps (some rgbFrame) 10 10 2 (8, 8) 150 50
          false).toOption.map (fun r => cannyArgs r.stages) =
        some (some (150, 50)) ∧
      ¬ ((150 : ℚ) ≤ 50) := by
  refine ⟨rfl, rfl, by norm_num⟩

/-- C6 (amended): the parameterized pipeline performs no validation or
normalization of the edge thresholds whatsoever: every invocation on a
present frame executes and passes `canny_thresh1`, `canny_thresh2` unchanged
to the edge detector, whether or not `canny_thresh2 ≥ canny_thresh1`. -/
theorem canny_thresholds_forwarded_unchanged
    (ops : CvOps) (img : Frame) (dh dhc clip : ℚ) (tiles : Nat × Nat)
    (t1 t2 : ℚ) (debug : Bool) :
    (adjust_parameters ops (some img) dh dhc clip tiles t1 t2 debug).toOption.map
        (fun r => cannyArgs r.stages) = some (some (t1, t2)) := by
  rfl

/-! ## Fusion arithmetic (claim C8) -/

theorem zipWith_replicate_eq {α β γ : Type} (f : α → β → γ) (n : Nat) (a : α) (b : β) :
    List.zipWith f (List.replicate n a) (List.replicate n b) =
      List.replicate n (f a b) := by
  induction n with
  | zero => rfl
  | succ n ih => simp [List.replicate_succ, ih]

/-- `cvRound` agrees with round-to-nearest whenever the value is not exactly
halfway between two integers (the tie-breaking rules then coincide). -/
theorem cvRound_eq_round (q : ℚ) (hne : Int.fract q ≠ 1 / 2) :
    cvRound q = round q := by
  have hfl : ((⌊q⌋ : ℤ) : ℚ) ≤ q := Int.floor_le q
  have hlt : q < ⌊q⌋ + 1 := Int.lt_floor_add_one q
  have hfr : Int.fract q = q - ⌊q⌋ := rfl
  unfold cvRound
  split_ifs with h1 h2 h3
  · rw [round_eq]
    symm
    refine Int.floor_eq_iff.mpr ⟨by linarith, ?_⟩
    rw [hfr] at h1
    linarith
  · rw [round_eq]
    symm
    rw [hfr] at h2
    refine Int.floor_eq_iff.mpr ⟨by push_cast; linarith, by push_cast; linarith⟩
  · exact absurd (le_antisymm (not_lt.mp h2) (not_lt.mp h1)) hne
  · exact absurd (le_antisymm (not_lt.mp h2) (not_lt.mp h1)) hne

/-- The fusion weights 0.8 and 0.2 can never produce an exact half-integer on
8-bit inputs: `(8a + 2b)/10` has even numerator, so a tie would force an even
integer to equal an odd one. -/
theorem fusion_fract_ne_half (a b : Nat) :
    Int.fract ((8 * a + 2 * b : ℚ) / 10) ≠ 1 / 2 := by
  intro hfr
  have hd : Int.fract ((8 * a + 2 * b : ℚ) / 10) =
      (8 * a + 2 * b : ℚ) / 10 - ⌊(8 * a + 2 * b : ℚ) / 10⌋ := rfl
  rw [hd] at hfr
  have h2 : (8 * (a : ℚ) + 2 * b) = 10 * ⌊(8 * a + 2 * b : ℚ) / 10⌋ + 5 := by
    field_simp at hfr
    linarith
  have h3 : (8 * (a : ℤ) + 2 * (b : ℤ)) =
      10 * ⌊(8 * a + 2 * b : ℚ) / 10⌋ + 5 := by exact_mod_cast h2
  omega

/-- C8: on two constant-valued single-channel frames with pixel values
`a` (the contrast-enhanced grayscale) and `b` (the closed edge map), each in
`[0, 255]`, every pixel of the fusion stage output
`cv2.addWeighted(A, 0.8, B, 0.2, 0)` equals `round(0.8*a + 0.2*b)`, and that
rounded value already lies in `[0, 255]`, so the saturation step never clips
and no overflow occurs — including at the boundary values 0 and 255. -/
theorem fusion_pixel_rounds_exactly (w hgt a b : Nat)
    (ha : a ≤ 255) (hb : b ≤ 255) :
    addWeighted (constFrame w hgt 1 a) (8 / 10) (constFrame w hgt 1 b) (2 / 10) 0 =
        constFrame w hgt 1 (round ((8 / 10 : ℚ) * a + (2 / 10 : ℚ) * b)).toNat ∧
      0 ≤ round ((8 / 10 : ℚ) * a + (2 / 10 : ℚ) * b) ∧
      round ((8 / 10 : ℚ) * a + (2 / 10 : ℚ) * b) ≤ 255 := by
  have hqe : (8 / 10 : ℚ) * a + (2 / 10 : ℚ) * b = (8 * a + 2 * b : ℚ) / 10 := by
    ring
  set q : ℚ := (8 * a + 2 * b : ℚ) / 10 with hq
  have hq0 : 0 ≤ q := by positivity
  have hq255 : q ≤ 255 := by
    rw [hq, div_le_iff₀ (by norm_num : (0 : ℚ) < 10)]
    have ha' : (a : ℚ) ≤ 255 := by exact_mod_cast ha
    have hb' : (b : ℚ) ≤ 255 := by exact_mod_cast hb
    linarith
  have hr0 : 0 ≤ round q := by
    rw [round_eq]
    have h0 : (0 : ℤ) = ⌊(0 : ℚ)⌋ := by norm_num
    rw [h0]
    exact Int.floor_le_floor (by linarith)
  have hr255 : round q ≤ 255 := by
    rw [round_eq]
    have h255 : ⌊(255 : ℚ) + 1 / 2⌋ = 255 := Int.floor_eq_iff.mpr (by norm_num)
    calc ⌊q + 1 / 2⌋ ≤ ⌊(255 : ℚ) + 1 / 2⌋ := Int.floor_le_floor (by linarith)
      _ = 255 := h255
  have hcv : cvRound q = round q := cvRound_eq_round q (fusion_fract_ne_half a b)
  have hkey : satCastU8 (cvRound ((8 / 10 : ℚ) * a + (2 / 10 : ℚ) * b + 0)) =
      (round ((8 / 10 : ℚ) * a + (2 / 10 : ℚ) * b)).toNat := by
    rw [show (8 / 10 : ℚ) * a + (2 / 10 : ℚ) * b + 0 =
        (8 / 10 : ℚ) * a + (2 / 10 : ℚ) * b by ring, hqe, hcv]
    unfold satCastU8
    rw [if_neg (by omega), if_neg (by omega)]
  refine ⟨?_, by rw [hqe]; exact hr0, by rw [hqe]; exact hr255⟩
  unfold addWeighted constFrame
  simp only [zipWith_replicate_eq, hkey]

/-- Witness for C8 at the maximum boundary: fusing a constant-255 frame with a
constant-0 frame. -/
theorem fusion_pixel_rounds_exactly_witness :
    addWeighted (constFrame 2 2 1 255) (8 / 10) (constFrame 2 2 1 0) (2 / 10) 0 =
      constFrame 2 2 1 (round ((8 / 10 : ℚ) * 255 + (2 / 10 : ℚ) * 0)).toNat :=
  (fusion_pixel_rounds_exactly 2 2 255 0 (by norm_num) (by norm_num)).1

/-! ## Capture-loop claims -/

/-- The loop body never exits: every environment entry gives rise to exactly
one completed iteration, whatever the read, reinitialization and callback
outcomes are. -/
theorem captureRun_length (d : CinemaDriver) (envs : List IterEnv) :
    (captureRun d envs).length = envs.length := by
  induction envs generalizing d with
  | nil => rfl
  | cons e es ih => simp [captureRun, ih]

/-- Releasing the device handle does not touch the failure counter. -/
theorem release_camera_fail_count (d : CinemaDriver) :
    (release_camera d).fail_count = d.fail_count := by
  unfold release_camera
  split <;> rfl

/-- C1: starting from `fail_count = 0`, a run of exactly 5 consecutive failed
reads performs the reinitialization (release followed by initialize) exactly
once, during the iteration of the 5th failure — hence before any 6th read
attempt — and not during the first 4 failing iterations.  The environments'
reinitialization and callback outcomes are arbitrary. -/
theorem reinit_exactly_on_fifth_failure (d : CinemaDriver)
    (e1 e2 e3 e4 e5 : IterEnv) (hd : d.fail_count = 0)
    (h1 : e1.readOk = false) (h2 : e2.readOk = false) (h3 : e3.readOk = false)
    (h4 : e4.readOk = false) (h5 : e5.readOk = false) :
    (captureRun d [e1, e2, e3, e4, e5]).map (fun r => r.reinitAttempted) =
      [false, false, false, false, true] := by
  simp [captureRun, captureIter, h1, h2, h3, h4, h5, hd]

/-- Witness for C1: five straight read failures on the opened default driver. -/
theorem reinit_exactly_on_fifth_failure_witness :
    (captureRun openDriver [failEnv, failEnv, failEnv, failEnv, failEnv]).map
        (fun r => r.reinitAttempted) = [false, false, false, false, true] :=
  reinit_exactly_on_fifth_failure openDriver failEnv failEnv failEnv failEnv
    failEnv rfl rfl rfl rfl rfl rfl

/-- C2 (counterexample): after a reinitialization attempt fails on the 5th
consecutive failed read, the very next (6th) failed read re-attempts
reinitialization immediately — the claim's prediction that no reinitialization
occurs before 5 further failures, i.e. trace `[F,F,F,F,T,F]`, is false:
`fail_count` is only reset by a *successful* `initialize_camera`, so it stays
at ≥ 5. -/
theorem reinit_retry_counterexample :
    (captureRun openDriver (List.replicate 6 failEnv)).map
        (fun r => r.reinitAttempted) =
        [false, false, false, false, true, true] ∧
      ¬ ((captureRun openDriver (List.replicate 6 failEnv)).map
          (fun r => r.reinitAttempted) =
        [false, false, false, false, true, false]) := by
  decide

/-- C2 (amended): when a reinitialization attempt inside the loop fails, the
failure is logged and the loop keeps running (no iteration is lost); but since
the failure counter is not reset, *every* subsequent consecutive failed read —
not every 5th — re-attempts reinitialization: any failed read with the counter
already at 4 or more attempts it, and a 10-failure run with reinitialization
always failing attempts (and logs a failed) reinitialization on iterations 5
through 10. -/
theorem reinit_retried_on_every_subsequent_failure :
    (∀ (d : CinemaDriver) (e : IterEnv), e.readOk = false →
        5 ≤ d.fail_count + 1 →
        (captureIter d e).reinitAttempted = true ∧
          (captureIter d e).reinitErrorLogged = !e.reinitOk ∧
          (e.reinitOk = false →
            (captureIter d e).state.fail_count = d.fail_count + 1)) ∧
    (∀ (d : CinemaDriver) (envs : List IterEnv),
        (captureRun d envs).length = envs.length) ∧
    ((captureRun openDriver (List.replicate 10 failEnv)).map
        (fun r => (r.reinitAttempted, r.reinitErrorLogged)) =
      [(false, false), (false, false), (false, false), (false, false),
       (true, true), (true, true), (true, true), (true, true), (true, true),
       (true, true)]) := by
  refine ⟨?_, captureRun_length, by decide⟩
  intro d e h h5
  cases hro : e.reinitOk <;>
    simp [captureIter, h, h5, hro, init_camera, release_camera_fail_count]

/-- A driver whose failure counter is already past the threshold (as after a
failed reinitialization). -/
def staleDriver : CinemaDriver := { openDriver with fail_count := 7 }

/-- Witness for the amended C2: with the counter already at 7, one more failed
read immediately re-attempts (and logs) a failed reinitialization. -/
theorem reinit_retried_on_every_subsequent_failure_witness :
    (captureIter staleDriver failEnv).reinitAttempted = true ∧
      (captureIter staleDriver failEnv).reinitErrorLogged = !failEnv.reinitOk ∧
      (failEnv.reinitOk = false →
        (captureIter staleDriver failEnv).state.fail_count =
          staleDriver.fail_count + 1) :=
  reinit_retried_on_every_subsequent_failure.1 staleDriver failEnv rfl (by decide)

/-- C3: the failure counter resets to 0 on every successful read and is
incremented by 1 (with no reinitialization) on every failed read below the
threshold; in the spec's scenario on `CameraConfig{width=640, height=480,
fps=30}` — 4 failures, success, 4 failures, success — the per-iteration
counter trace is `[1,2,3,4,0,1,2,3,4,0]` and no reinitialization ever occurs,
for any session handle, any callback registration and any callback outcome. -/
theorem fail_counter_trace :
    (∀ (d : CinemaDriver) (e : IterEnv), e.readOk = true →
        (captureIter d e).state.fail_count = 0) ∧
    (∀ (d : CinemaDriver) (e : IterEnv), e.readOk = false →
        d.fail_count + 1 < 5 →
        (captureIter d e).state.fail_count = d.fail_count + 1 ∧
          (captureIter d e).reinitAttempted = false) ∧
    (∀ (cap : Option Bool) (hcb cb1 cb2 : Bool),
        (captureRun { defaultDriver with cap := cap, hasCallback := hcb }
            [failEnv, failEnv, failEnv, failEnv, succEnv cb1,
             failEnv, failEnv, failEnv, failEnv, succEnv cb2]).map
            (fun r => r.state.fail_count) = [1, 2, 3, 4, 0, 1, 2, 3, 4, 0] ∧
          (captureRun { defaultDriver with cap := cap, hasCallback := hcb }
              [failEnv, failEnv, failEnv, failEnv, succEnv cb1,
               failEnv, failEnv, failEnv, failEnv, succEnv cb2]).map
            (fun r => r.reinitAttempted) = List.replicate 10 false) := by
  refine ⟨?_, ?_, ?_⟩
  · intro d e h
    simp [captureIter, h]
  · intro d e h hlt
    have h5 : ¬ (5 ≤ d.fail_count + 1) := by omega
    simp [captureIter, h, h5]
  · intro cap hcb cb1 cb2
    cases cap with
    | none => cases hcb <;> cases cb1 <;> cases cb2 <;> decide
    | some b => cases b <;> cases hcb <;> cases cb1 <;> cases cb2 <;> decide

/-- Witness for C3: a successful read resets the counter from 3 to 0, and a
failed read below threshold increments it from 2 to 3 without reinitializing. -/
theorem fail_counter_trace_witness :
    (captureIter { openDriver with fail_count := 3 } (succEnv false)).state.fail_count = 0 ∧
      (captureIter { openDriver with fail_count := 2 } failEnv).state.fail_count =
          { openDriver with fail_count := 2 }.fail_count + 1 ∧
        (captureIter { openDriver with fail_count := 2 } failEnv).reinitAttempted = false :=
  ⟨fail_counter_trace.1 { openDriver with fail_count := 3 } (succEnv false) rfl,
   fail_counter_trace.2.1 { openDriver with fail_count := 2 } failEnv rfl (by decide)⟩

/-- C9: for every registered consumer callback and every successfully read
frame, an exception raised by the callback is caught and logged, the
iteration's resulting state is exactly the state after a non-raising callback
(`fail_count` reset to 0, nothing else changed), the loop proceeds to the
remaining iterations, and no iteration is ever lost to a callback error. -/
theorem callback_error_contained :
    (∀ (d : CinemaDriver) (e : IterEnv) (es : List IterEnv), e.readOk = true →
        captureRun d (e :: es) =
            captureIter d e :: captureRun { d with fail_count := 0 } es ∧
          (captureIter d e).callbackInvoked = d.hasCallback ∧
          (captureIter d e).callbackErrorLogged = (d.hasCallback && e.cbRaises) ∧
          (captureIter d e).state = { d with fail_count := 0 }) ∧
    (∀ (d : CinemaDriver) (envs : List IterEnv),
        (captureRun d envs).length = envs.length) := by
  refine ⟨?_, captureRun_length⟩
  intro d e es h
  have hst : (captureIter d e).state = { d with fail_count := 0 } := by
    simp [captureIter, h]
  refine ⟨?_, by simp [captureIter, h], by simp [captureIter, h], hst⟩
  show captureIter d e :: captureRun (captureIter d e).state es = _
  rw [hst]

/-- A driver with a registered frame callback. -/
def cbDriver : CinemaDriver := { openDriver with hasCallback := true }

/-- Witness for C9: a raising callback on a successful read is logged and the
loop continues into a subsequent iteration. -/
theorem callback_error_contained_witness :
    captureRun cbDriver (succEnv true :: [failEnv]) =
        captureIter cbDriver (succEnv true) ::
          captureRun { cbDriver with fail_count := 0 } [failEnv] ∧
      (captureIter cbDriver (succEnv true)).callbackInvoked = cbDriver.hasCallback ∧
      (captureIter cbDriver (succEnv true)).callbackErrorLogged =
          (cbDriver.hasCallback && (succEnv true).cbRaises) ∧
      (captureIter cbDriver (succEnv true)).state = { cbDriver with fail_count := 0 } :=
  callback_error_contained.1 cbDriver (succEnv true) [failEnv] rfl

/-- A driver whose capture loop is already running. -/
def runningDriver : CinemaDriver :=
  { defaultDriver with cap := some true, running := true, threadsStarted := 1 }

/-- C7 (counterexample): calling `start_capture` while the loop is already
running is *not* a no-op — there is no `running` guard, so the driver state
changes: a second capture-loop thread is launched (`threadsStarted` goes from
1 to 2). -/
theorem start_capture_not_noop_when_running :
    runningDriver.running = true ∧
      (start_capture runningDriver true).1 ≠ runningDriver ∧
      (start_capture runningDriver true).1.threadsStarted = 2 := by
  decide

/-- C7 (amended): `start_capture` never checks whether the loop is already
running: with a session handle held it leaves the configuration, session and
failure counter unchanged, sets `running` and launches one additional
capture-loop thread; only when no handle is held (`cap is None`) does it first
initialize the camera, and it returns right after launching the thread. -/
theorem start_capture_launches_additional_thread :
    (∀ (d : CinemaDriver) (openOk : Bool), d.cap.isSome = true →
        start_capture d openOk =
          ({ d with running := true, threadsStarted := d.threadsStarted + 1 },
            true)) ∧
    (∀ (d : CinemaDriver), d.cap = none →
        start_capture d true =
          ({ d with
              cap := some true, fail_count := 0, running := true,
              threadsStarted := d.threadsStarted + 1 }, true)) := by
  constructor
  · intro d ok h
    cases hc : d.cap with
    | none => rw [hc] at h; simp at h
    | some b => simp [start_capture, hc]
  · intro d h
    simp [start_capture, h, init_camera]

/-- Witness for the amended C7: starting the already-running driver launches a
second thread. -/
theorem start_capture_launches_additional_thread_witness :
    start_capture runningDriver true =
      ({ runningDriver with
          running := true,
          threadsStarted := runningDriver.threadsStarted + 1 }, true) :=
  start_capture_launches_additional_thread.1 runningDriver true rfl

/-- C10: a `set_camera_parameters` call made while no device handle is open
(`self.cap is None`) returns without raising and without modifying any stored
configuration field — the update is dropped entirely, not merged for later
application (the function logs a warning and returns before the update loop). -/
theorem set_parameters_dropped_when_unopened (d : CinemaDriver)
    (params : List (String × Int)) (h : d.cap = none) :
    set_camera_parameters d params = d := by
  simp [set_camera_parameters, h]

/-- Witness for C10: a width update plus an unknown key on the never-opened
default driver leave it untouched. -/
theorem set_parameters_dropped_when_unopened_witness :
    set_camera_parameters defaultDriver [("width", 1280), ("bogus", 1)] =
      defaultDriver :=
  set_parameters_dropped_when_unopened defaultDriver
    [("width", 1280), ("bogus", 1)] rfl

end Relume
